import Mathlib

/-
Verification of the procedural city generator and box-mesh builder
(src/main.cpp). The two core functions, generateCity and
createBuildingBuffers, are embedded shallowly: glm::vec3 becomes a record
of rationals, std::vector becomes List, and the clock-seeded mt19937
together with uniform_real_distribution is abstracted as a stream
u : Nat -> Rat of unit samples, one per distribution call, with
uniform u lo hi = lo + u * (hi - lo); a sample in [0,1] models a draw
inside the distribution's stated range.
-/

namespace City

/-- Model of glm::vec3: three rational components. -/
structure Vec3 where
  x : ℚ
  y : ℚ
  z : ℚ
deriving DecidableEq, Repr

/-- Accessor r aliases x, as in glm. -/
def Vec3.r (v : Vec3) : ℚ := v.x

/-- Accessor g aliases y, as in glm. -/
def Vec3.g (v : Vec3) : ℚ := v.y

/-- Accessor b aliases z, as in glm. -/
def Vec3.b (v : Vec3) : ℚ := v.z

/-- Model of struct Building from src/main.cpp. -/
structure Building where
  position : Vec3
  width : ℚ
  depth : ℚ
  height : ℚ
  color : Vec3
deriving DecidableEq, Repr

/-- Value of one uniform_real_distribution(lo, hi) call, fed a unit
sample u. -/
def uniform (u lo hi : ℚ) : ℚ := lo + u * (hi - lo)

/-- One iteration of the generation loop of generateCity: building i
consumes the eight draws u (8*i) .. u (8*i+7), in the source's call
order (x, z, width, depth, height, then the three color channels). -/
def mkBuilding (u : ℕ → ℚ) (i : ℕ) : Building :=
  let px := uniform (u (8 * i)) (-100) 100
  let pz := uniform (u (8 * i + 1)) (-100) 100
  let w := uniform (u (8 * i + 2)) 5 15
  let d := uniform (u (8 * i + 3)) 5 15
  let h := uniform (u (8 * i + 4)) 10 60
  let c1 := uniform (u (8 * i + 5)) (2 / 10) (8 / 10)
  let c2 := uniform (u (8 * i + 6)) (2 / 10) (8 / 10)
  let c3 := uniform (u (8 * i + 7)) (2 / 10) (8 / 10)
  { position := ⟨px, 0, pz⟩
    width := w
    depth := d
    height := h
    color :=
      if i % 5 = 0 then
        ⟨c1 * (1 / 2) + 1 / 2, c2 * (1 / 2) + 1 / 2, c3 * (1 / 2) + 1 / 2⟩
      else
        ⟨c1 * (3 / 10), c2 * (3 / 10), c3 * (1 / 2) + 3 / 10⟩ }

/-- Ground plane pushed last by generateCity. -/
def ground : Building :=
  { position := ⟨0, -1 / 2, 0⟩
    width := 250
    depth := 250
    height := 1
    color := ⟨1 / 10, 1 / 10, 1 / 10⟩ }

/-- Model of generateCity(buildings, numBuildings): the loop
for (int i = 0; i < numBuildings; i++) pushes one random building per
iteration (it runs numBuildings.toNat times, zero when the int argument
is negative), then the fixed ground plane is pushed. The vector is only
appended to, never cleared. -/
def generateCity (u : ℕ → ℚ) (buildings : List Building)
    (numBuildings : ℤ) : List Building :=
  (buildings ++ (List.range numBuildings.toNat).map (mkBuilding u)) ++ [ground]

/-- Vertex floats pushed for one building by createBuildingBuffers:
eight vertices of six floats each (position then color), in the
source's push order: bottom front-left, front-right, back-right,
back-left, then the same corners on top, the top four with each color
channel raised by 0.1. -/
def buildingVertices (bld : Building) : List ℚ :=
  let hw := bld.width / 2
  let hh := bld.height / 2
  let hd := bld.depth / 2
  [ bld.position.x - hw, bld.position.y - hh, bld.position.z + hd,
    bld.color.r, bld.color.g, bld.color.b,
    bld.position.x + hw, bld.position.y - hh, bld.position.z + hd,
    bld.color.r, bld.color.g, bld.color.b,
    bld.position.x + hw, bld.position.y - hh, bld.position.z - hd,
    bld.color.r, bld.color.g, bld.color.b,
    bld.position.x - hw, bld.position.y - hh, bld.position.z - hd,
    bld.color.r, bld.color.g, bld.color.b,
    bld.position.x - hw, bld.position.y + hh, bld.position.z + hd,
    bld.color.r + 1 / 10, bld.color.g + 1 / 10, bld.color.b + 1 / 10,
    bld.position.x + hw, bld.position.y + hh, bld.position.z + hd,
    bld.color.r + 1 / 10, bld.color.g + 1 / 10, bld.color.b + 1 / 10,
    bld.position.x + hw, bld.position.y + hh, bld.position.z - hd,
    bld.color.r + 1 / 10, bld.color.g + 1 / 10, bld.color.b + 1 / 10,
    bld.position.x - hw, bld.position.y + hh, bld.position.z - hd,
    bld.color.r + 1 / 10, bld.color.g + 1 / 10, bld.color.b + 1 / 10 ]

/-- Index entries pushed for one building by createBuildingBuffers, in
the source's push order (bottom, top, front, right, back, left faces,
two triangles each). -/
def buildingIndices (baseIndex : ℕ) : List ℕ :=
  [ baseIndex + 0, baseIndex + 1, baseIndex + 2,
    baseIndex + 2, baseIndex + 3, baseIndex + 0,
    baseIndex + 4, baseIndex + 7, baseIndex + 6,
    baseIndex + 6, baseIndex + 5, baseIndex + 4,
    baseIndex + 0, baseIndex + 4, baseIndex + 5,
    baseIndex + 5, baseIndex + 1, baseIndex + 0,
    baseIndex + 1, baseIndex + 5, baseIndex + 6,
    baseIndex + 6, baseIndex + 2, baseIndex + 1,
    baseIndex + 2, baseIndex + 6, baseIndex + 7,
    baseIndex + 7, baseIndex + 3, baseIndex + 2,
    baseIndex + 3, baseIndex + 7, baseIndex + 4,
    baseIndex + 4, baseIndex + 0, baseIndex + 3 ]

/-- Model of createBuildingBuffers(buildings, vertices, indices): for
each building in order, the base index is vertices.size() / 6 computed
before the push, then the 48 vertex floats and the 36 index entries are
appended. -/
def createBuildingBuffers : List Building → List ℚ → List ℕ → List ℚ × List ℕ
  | [], vertices, indices => (vertices, indices)
  | bld :: rest, vertices, indices =>
      let baseIndex := vertices.length / 6
      createBuildingBuffers rest (vertices ++ buildingVertices bld)
        (indices ++ buildingIndices baseIndex)

/-- Vertex j of one building as described by the spec's words: front is
the +z face offset by hd, back is -z, left is -x offset by hw, right is
+x, bottom is -y offset by hh, top is +y; vertices 0-3 are the bottom
corners front-left, front-right, back-right, back-left, vertices 4-7
the same corners on top; the bottom four carry the raw color, the top
four carry color + 0.1 per channel, unclamped. -/
def specVertex (bld : Building) (j : ℕ) : List ℚ :=
  let sx : ℚ := if j % 4 = 1 ∨ j % 4 = 2 then 1 else -1
  let sz : ℚ := if j % 4 = 0 ∨ j % 4 = 1 then 1 else -1
  let sy : ℚ := if j < 4 then -1 else 1
  let tint : ℚ := if j < 4 then 0 else 1 / 10
  [ bld.position.x + sx * (bld.width / 2),
    bld.position.y + sy * (bld.height / 2),
    bld.position.z + sz * (bld.depth / 2),
    bld.color.r + tint, bld.color.g + tint, bld.color.b + tint ]

/-- Vertex list for one building as the spec describes it: exactly 8
vertices in the fixed order above. -/
def specBuildingVertices (bld : Building) : List ℚ :=
  ((List.range 8).map (specVertex bld)).flatten

/-- Claim C1: for every N >= 0, generateCity called with count N on an
empty output sequence produces exactly N+1 building descriptors, and the
last descriptor equals the fixed ground plane: position (0, -0.5, 0),
width 250, depth 250, height 1, color (0.1, 0.1, 0.1); for N = 0 the
result is that single descriptor. -/
theorem generateCity_count_and_ground (u : ℕ → ℚ) (N : ℤ) (hN : 0 ≤ N) :
    (generateCity u [] N).length = N.toNat + 1 ∧
    (generateCity u [] N).getLast? =
      some ⟨⟨0, -1 / 2, 0⟩, 250, 250, 1, ⟨1 / 10, 1 / 10, 1 / 10⟩⟩ ∧
    generateCity u [] 0 = [⟨⟨0, -1 / 2, 0⟩, 250, 250, 1, ⟨1 / 10, 1 / 10, 1 / 10⟩⟩] := by
  refine ⟨?_, ?_, ?_⟩
  · simp [generateCity]
  · simp [generateCity, ground]
  · simp [generateCity, ground]

/-- Witness for C1 at N = 3 with the constant unit stream 1/2. -/
theorem generateCity_count_and_ground_witness :
    (generateCity (fun _ => 1 / 2) [] 3).length = (3 : ℤ).toNat + 1 ∧
    (generateCity (fun _ => 1 / 2) [] 3).getLast? =
      some ⟨⟨0, -1 / 2, 0⟩, 250, 250, 1, ⟨1 / 10, 1 / 10, 1 / 10⟩⟩ ∧
    generateCity (fun _ => 1 / 2) [] 0 =
      [⟨⟨0, -1 / 2, 0⟩, 250, 250, 1, ⟨1 / 10, 1 / 10, 1 / 10⟩⟩] :=
  generateCity_count_and_ground (fun _ => 1 / 2) 3 (by decide)

/-- Claim C2: every building yields exactly 8 vertices (48 floats) in
the fixed order bottom front-left, front-right, back-right, back-left,
then the same corners on top, with front/back at z ± depth/2,
right/left at x ± width/2, top/bottom at y ± height/2; the bottom
four carry the raw color and the top four carry color + 0.1 per channel
without clamping; concretely, for position (0,0,0) and width = depth =
height = 10, vertex 0 is (-5,-5,5, r,g,b) and vertex 6 is
(5,5,-5, r+0.1,g+0.1,b+0.1). -/
theorem buildingVertices_spec (bld : Building) (r g b : ℚ) :
    (buildingVertices bld).length = 48 ∧
    buildingVertices bld = specBuildingVertices bld ∧
    ((buildingVertices ⟨⟨0, 0, 0⟩, 10, 10, 10, ⟨r, g, b⟩⟩).take 6 =
      [-5, -5, 5, r, g, b] ∧
     ((buildingVertices ⟨⟨0, 0, 0⟩, 10, 10, 10, ⟨r, g, b⟩⟩).drop 36).take 6 =
      [5, 5, -5, r + 1 / 10, g + 1 / 10, b + 1 / 10]) := by
  refine ⟨rfl, ?_, ?_, ?_⟩
  · simp [buildingVertices, specBuildingVertices, specVertex,
      Vec3.r, Vec3.g, Vec3.b, List.range_succ, sub_eq_add_neg]
  · simp [buildingVertices, Vec3.r, Vec3.g, Vec3.b]
    norm_num
  · simp [buildingVertices, Vec3.r, Vec3.g, Vec3.b]
    norm_num

/-- Local vertex indices of the 12 triangles exactly as the spec lists
them: bottom (0,1,2),(2,3,0); top (4,7,6),(6,5,4); front (0,4,5),
(5,1,0); right (1,5,6),(6,2,1); back (2,6,7),(7,3,2); left (3,7,4),
(4,0,3). -/
def specLocalIndices : List ℕ :=
  [ 0, 1, 2, 2, 3, 0,
    4, 7, 6, 6, 5, 4,
    0, 4, 5, 5, 1, 0,
    1, 5, 6, 6, 2, 1,
    2, 6, 7, 7, 3, 2,
    3, 7, 4, 4, 0, 3 ]

/-- Claim C3: every building yields exactly 36 indices, each of the
form baseIndex + local index, with the faces and triangles in exactly
the spec's order. -/
theorem buildingIndices_spec (baseIndex : ℕ) :
    (buildingIndices baseIndex).length = 36 ∧
    buildingIndices baseIndex = specLocalIndices.map (fun l => baseIndex + l) :=
  ⟨rfl, rfl⟩

/-- Vertex floats produced by a whole run of createBuildingBuffers, one
48-float block per building. -/
def cityVertexFloats (bs : List Building) : List ℚ :=
  (bs.map buildingVertices).flatten

/-- Index entries produced by a whole run of createBuildingBuffers when
the first building gets base index m: each later building's base is 8
higher, since each block adds 48 floats (8 vertices). -/
def cityIndices (m : ℕ) : List Building → List ℕ
  | [] => []
  | _ :: rest => buildingIndices m ++ cityIndices (m + 8) rest

theorem buildingVertices_length (bld : Building) :
    (buildingVertices bld).length = 48 := rfl

theorem buildingIndices_length (m : ℕ) :
    (buildingIndices m).length = 36 := rfl

/-- Closed form of the builder loop: it only appends, and the base
index of the first processed building is the float length of the
incoming vertex buffer divided by 6. -/
theorem createBuildingBuffers_closed (bs : List Building) :
    ∀ (verts : List ℚ) (idxs : List ℕ),
      createBuildingBuffers bs verts idxs =
        (verts ++ cityVertexFloats bs,
         idxs ++ cityIndices (verts.length / 6) bs) := by
  induction bs with
  | nil =>
      intro verts idxs
      simp [createBuildingBuffers, cityVertexFloats, cityIndices]
  | cons bld rest ih =>
      intro verts idxs
      have hlen : (verts ++ buildingVertices bld).length / 6 =
          verts.length / 6 + 8 := by
        simp [buildingVertices_length]
        omega
      simp only [createBuildingBuffers, ih, hlen]
      simp [cityVertexFloats, cityIndices, List.append_assoc]

theorem cityVertexFloats_length (bs : List Building) :
    (cityVertexFloats bs).length = 48 * bs.length := by
  induction bs with
  | nil => simp [cityVertexFloats]
  | cons bld rest ih =>
      simp [cityVertexFloats] at ih ⊢
      simp [buildingVertices_length, ih]
      ring

theorem cityIndices_length (bs : List Building) :
    ∀ m, (cityIndices m bs).length = 36 * bs.length := by
  induction bs with
  | nil => intro m; simp [cityIndices]
  | cons bld rest ih =>
      intro m
      simp [cityIndices, buildingIndices_length, ih]
      ring

theorem buildingIndices_getD_bounds (m j : ℕ) (hj : j < 36) :
    m ≤ (buildingIndices m).getD j 0 ∧ (buildingIndices m).getD j 0 ≤ m + 7 := by
  interval_cases j <;> simp [buildingIndices]

theorem cityIndices_getD (bs : List Building) :
    ∀ m k j, k < bs.length → j < 36 →
      (cityIndices m bs).getD (36 * k + j) 0 =
        (buildingIndices (m + 8 * k)).getD j 0 := by
  induction bs with
  | nil => intro m k j hk _; simp at hk
  | cons bld rest ih =>
      intro m k j hk hj
      match k with
      | 0 =>
          have h36 : j < (buildingIndices m).length := by
            simpa [buildingIndices_length] using hj
          simpa [cityIndices] using List.getD_append _ _ _ _ h36
      | k + 1 =>
          have hk' : k < rest.length := by simpa using hk
          have hge : (buildingIndices m).length ≤ 36 * (k + 1) + j := by
            simp [buildingIndices_length]; omega
          have step := List.getD_append_right (buildingIndices m)
            (cityIndices (m + 8) rest) 0 (36 * (k + 1) + j) hge
          have harith : 36 * (k + 1) + j - (buildingIndices m).length =
              36 * k + j := by
            simp [buildingIndices_length]; omega
          have harith2 : m + 8 + 8 * k = m + 8 * (k + 1) := by ring
          rw [cityIndices, step, harith, ih (m + 8) k j hk' hj, harith2]

/-- Claim C5: the base index used for a descriptor's 36 indices is the
vertex-buffer length in floats divided by 6, measured before that
descriptor's vertices are appended; consequently, starting from empty
buffers, every index emitted for the k-th descriptor (0-indexed) lies
in the range 8k .. 8k+7. -/
theorem createBuildingBuffers_base_and_range (bld : Building)
    (rest bs : List Building) (verts : List ℚ) (idxs : List ℕ) (k j : ℕ)
    (hk : k < bs.length) (hj : j < 36) :
    createBuildingBuffers (bld :: rest) verts idxs =
      createBuildingBuffers rest (verts ++ buildingVertices bld)
        (idxs ++ buildingIndices (verts.length / 6)) ∧
    8 * k ≤ (createBuildingBuffers bs [] []).2.getD (36 * k + j) 0 ∧
    (createBuildingBuffers bs [] []).2.getD (36 * k + j) 0 ≤ 8 * k + 7 := by
  refine ⟨rfl, ?_, ?_⟩ <;>
  · rw [createBuildingBuffers_closed]
    simp only [List.nil_append, List.length_nil]
    rw [show (0 : ℕ) / 6 = 0 from rfl, cityIndices_getD bs 0 k j hk hj]
    have := buildingIndices_getD_bounds (0 + 8 * k) j hj
    omega

/-- Witness for C5: with two concrete descriptors, entry 1 of the
second descriptor's index block (overall position 37) lies in 8..15. -/
theorem createBuildingBuffers_base_and_range_witness :
    createBuildingBuffers [ground] [] [] =
      createBuildingBuffers [] ([] ++ buildingVertices ground)
        ([] ++ buildingIndices ((List.length ([] : List ℚ)) / 6)) ∧
    8 * 1 ≤ (createBuildingBuffers [ground, ground] [] []).2.getD (36 * 1 + 1) 0 ∧
    (createBuildingBuffers [ground, ground] [] []).2.getD (36 * 1 + 1) 0 ≤ 8 * 1 + 7 :=
  createBuildingBuffers_base_and_range ground [] [ground, ground] [] [] 1 1
    (by decide) (by decide)

/-- Claim C6: processing one descriptor appends exactly 48 floats and
36 index entries; a vertex-buffer length that is a multiple of 6 stays
a multiple of 6; and for 101 descriptors the builder yields 808
vertices (4848 floats) and 3636 indices. -/
theorem createBuildingBuffers_counts (bld : Building) (bs : List Building)
    (verts : List ℚ) (idxs : List ℕ) :
    (createBuildingBuffers [bld] verts idxs).1.length = verts.length + 48 ∧
    (createBuildingBuffers [bld] verts idxs).2.length = idxs.length + 36 ∧
    (verts.length % 6 = 0 →
      (createBuildingBuffers [bld] verts idxs).1.length % 6 = 0) ∧
    (bs.length = 101 →
      (createBuildingBuffers bs [] []).1.length = 808 * 6 ∧
      (createBuildingBuffers bs [] []).2.length = 3636) := by
  refine ⟨?_, ?_, ?_, ?_⟩
  · rw [createBuildingBuffers_closed]
    simp [cityVertexFloats_length, cityVertexFloats, buildingVertices_length]
  · rw [createBuildingBuffers_closed]
    simp [cityIndices, buildingIndices_length]
  · intro h
    rw [createBuildingBuffers_closed]
    simp [cityVertexFloats, buildingVertices_length]
    omega
  · intro h
    rw [createBuildingBuffers_closed]
    simp [cityVertexFloats_length, cityIndices_length, h]

/-- Witness for C6 at a concrete descriptor and concrete 101-element
input list. -/
theorem createBuildingBuffers_counts_witness :
    (createBuildingBuffers [ground] [] []).1.length =
      (List.length ([] : List ℚ)) + 48 ∧
    (createBuildingBuffers [ground] [] []).2.length =
      (List.length ([] : List ℕ)) + 36 ∧
    ((List.length ([] : List ℚ)) % 6 = 0 →
      (createBuildingBuffers [ground] [] []).1.length % 6 = 0) ∧
    ((List.replicate 101 ground).length = 101 →
      (createBuildingBuffers (List.replicate 101 ground) [] []).1.length = 808 * 6 ∧
      (createBuildingBuffers (List.replicate 101 ground) [] []).2.length = 3636) :=
  createBuildingBuffers_counts ground (List.replicate 101 ground) [] []

/-- Componentwise difference of two vectors. -/
def vsub (a c : Vec3) : Vec3 := ⟨a.x - c.x, a.y - c.y, a.z - c.z⟩

/-- Cross product of two vectors. -/
def cross (a c : Vec3) : Vec3 :=
  ⟨a.y * c.z - a.z * c.y, a.z * c.x - a.x * c.z, a.x * c.y - a.y * c.x⟩

/-- Dot product of two vectors. -/
def dot (a c : Vec3) : ℚ := a.x * c.x + a.y * c.y + a.z * c.z

/-- Position of vertex i in an interleaved 6-float-stride buffer. -/
def vertexPosAt (verts : List ℚ) (i : ℕ) : Vec3 :=
  ⟨verts.getD (6 * i) 0, verts.getD (6 * i + 1) 0, verts.getD (6 * i + 2) 0⟩

/-- Geometric normal of triangle t of an index buffer, the cross
product of its two edge vectors taken in emission order. -/
def triangleNormal (verts : List ℚ) (idxs : List ℕ) (t : ℕ) : Vec3 :=
  let a := vertexPosAt verts (idxs.getD (3 * t) 0)
  let c := vertexPosAt verts (idxs.getD (3 * t + 1) 0)
  let e := vertexPosAt verts (idxs.getD (3 * t + 2) 0)
  cross (vsub c a) (vsub e a)

/-- Outward axis direction of the face that triangles 2f and 2f+1
belong to, in the emission order bottom, top, front, right, back,
left. -/
def faceOutward : ℕ → Vec3
  | 0 => ⟨0, -1, 0⟩
  | 1 => ⟨0, 1, 0⟩
  | 2 => ⟨0, 0, 1⟩
  | 3 => ⟨1, 0, 0⟩
  | 4 => ⟨0, 0, -1⟩
  | _ => ⟨-1, 0, 0⟩

/-- Counterexample to claim C4: for the unit-color cube of extent 10 at
the origin, the first emitted triangle (half of the bottom face) has
normal (0, 100, 0), which points against the bottom face's outward
direction (0, -1, 0), not with it; the claimed positive agreement
fails. -/
theorem triangle_winding_not_outward :
    ¬ 0 < dot
        (triangleNormal
          (buildingVertices ⟨⟨0, 0, 0⟩, 10, 10, 10, ⟨0, 0, 0⟩⟩)
          (buildingIndices 0) 0)
        (faceOutward 0) := by
  simp [triangleNormal, vertexPosAt, buildingVertices, buildingIndices,
    cross, vsub, dot, faceOutward, Vec3.r, Vec3.g, Vec3.b]
  norm_num

/-- Amended claim C4: for every descriptor with positive width, depth
and height, each of the 12 emitted triangles has consistent winding,
but the cross product of its edge vectors in emission order points
toward the box center: its dot product with the outward direction of
the triangle's face is negative, for all 6 faces. -/
theorem triangle_winding_consistent_inward (bld : Building)
    (hw : 0 < bld.width) (hd : 0 < bld.depth) (hh : 0 < bld.height)
    (t : ℕ) (ht : t < 12) :
    dot (triangleNormal (buildingVertices bld) (buildingIndices 0) t)
      (faceOutward (t / 2)) < 0 := by
  have hwd := mul_pos hw hd
  have hwh := mul_pos hw hh
  have hdh := mul_pos hd hh
  interval_cases t <;>
  · simp [triangleNormal, vertexPosAt, buildingVertices, buildingIndices,
      cross, vsub, dot, faceOutward, Vec3.r, Vec3.g, Vec3.b]
    nlinarith

/-- Witness for the amended C4 at the extent-10 cube with zero color,
triangle 0. -/
theorem triangle_winding_consistent_inward_witness :
    dot
      (triangleNormal
        (buildingVertices ⟨⟨0, 0, 0⟩, 10, 10, 10, ⟨0, 0, 0⟩⟩)
        (buildingIndices 0) 0)
      (faceOutward (0 / 2)) < 0 :=
  triangle_winding_consistent_inward ⟨⟨0, 0, 0⟩, 10, 10, 10, ⟨0, 0, 0⟩⟩
    (by norm_num) (by norm_num) (by norm_num) 0 (by norm_num)

/-- Claim C7: for every N >= 0 and every behaviour of the random
source whose unit samples stay in [0,1] (so each uniform draw lies in
its stated range), every non-ground descriptor of generateCity(N) has
width in [5,15], depth in [5,15], height in [10,60], position.x in
[-100,100], position.z in [-100,100], and position.y = 0. -/
theorem generateCity_building_bounds (u : ℕ → ℚ)
    (hu : ∀ n, 0 ≤ u n ∧ u n ≤ 1) (N : ℤ) (hN : 0 ≤ N) :
    ∀ bld ∈ (generateCity u [] N).dropLast,
      5 ≤ bld.width ∧ bld.width ≤ 15 ∧
      5 ≤ bld.depth ∧ bld.depth ≤ 15 ∧
      10 ≤ bld.height ∧ bld.height ≤ 60 ∧
      -100 ≤ bld.position.x ∧ bld.position.x ≤ 100 ∧
      -100 ≤ bld.position.z ∧ bld.position.z ≤ 100 ∧
      bld.position.y = 0 := by
  intro bld hbld
  have hdl : (generateCity u [] N).dropLast =
      (List.range N.toNat).map (mkBuilding u) := by
    simp [generateCity]
  rw [hdl] at hbld
  obtain ⟨i, hi, rfl⟩ := List.mem_map.mp hbld
  refine ⟨?_, ?_, ?_, ?_, ?_, ?_, ?_, ?_, ?_, ?_, ?_⟩ <;>
    simp only [mkBuilding, uniform] <;>
    nlinarith [(hu (8 * i)).1, (hu (8 * i)).2, (hu (8 * i + 1)).1,
      (hu (8 * i + 1)).2, (hu (8 * i + 2)).1, (hu (8 * i + 2)).2,
      (hu (8 * i + 3)).1, (hu (8 * i + 3)).2, (hu (8 * i + 4)).1,
      (hu (8 * i + 4)).2]

/-- Witness for C7: the constant sample 1/2, N = 1, and the single
generated building. -/
theorem generateCity_building_bounds_witness :
    5 ≤ (mkBuilding (fun _ => (1 : ℚ) / 2) 0).width ∧
    (mkBuilding (fun _ => (1 : ℚ) / 2) 0).width ≤ 15 ∧
    5 ≤ (mkBuilding (fun _ => (1 : ℚ) / 2) 0).depth ∧
    (mkBuilding (fun _ => (1 : ℚ) / 2) 0).depth ≤ 15 ∧
    10 ≤ (mkBuilding (fun _ => (1 : ℚ) / 2) 0).height ∧
    (mkBuilding (fun _ => (1 : ℚ) / 2) 0).height ≤ 60 ∧
    -100 ≤ (mkBuilding (fun _ => (1 : ℚ) / 2) 0).position.x ∧
    (mkBuilding (fun _ => (1 : ℚ) / 2) 0).position.x ≤ 100 ∧
    -100 ≤ (mkBuilding (fun _ => (1 : ℚ) / 2) 0).position.z ∧
    (mkBuilding (fun _ => (1 : ℚ) / 2) 0).position.z ≤ 100 ∧
    (mkBuilding (fun _ => (1 : ℚ) / 2) 0).position.y = 0 :=
  generateCity_building_bounds (fun _ => 1 / 2)
    (fun _ => ⟨by norm_num, by norm_num⟩) 1 (by norm_num)
    (mkBuilding (fun _ => 1 / 2) 0) (by simp [generateCity])

theorem generateCity_getD_building (u : ℕ → ℚ) (N : ℤ) (i : ℕ)
    (hi : i < N.toNat) :
    (generateCity u [] N).getD i ground = mkBuilding u i := by
  have hlt : i < ((List.range N.toNat).map (mkBuilding u)).length := by
    simpa using hi
  rw [generateCity, List.nil_append,
    List.getD_append _ _ _ _ hlt]
  simp [List.getD, hi]

/-- Claim C8: with every colorDist draw in [0.2, 0.8] (unit samples in
[0,1]), each generated descriptor at a zero-based index that is a
multiple of 5 has every color channel at least 0.5, and each other
generated descriptor has red at most 0.24, green at most 0.24 and blue
at most 0.8. -/
theorem generateCity_color_classes (u : ℕ → ℚ)
    (hu : ∀ n, 0 ≤ u n ∧ u n ≤ 1) (N : ℤ) (i : ℕ) (hi : i < N.toNat) :
    (i % 5 = 0 →
      1 / 2 ≤ ((generateCity u [] N).getD i ground).color.r ∧
      1 / 2 ≤ ((generateCity u [] N).getD i ground).color.g ∧
      1 / 2 ≤ ((generateCity u [] N).getD i ground).color.b) ∧
    (i % 5 ≠ 0 →
      ((generateCity u [] N).getD i ground).color.r ≤ 24 / 100 ∧
      ((generateCity u [] N).getD i ground).color.g ≤ 24 / 100 ∧
      ((generateCity u [] N).getD i ground).color.b ≤ 8 / 10) := by
  rw [generateCity_getD_building u N i hi]
  constructor <;> intro h5 <;>
    refine ⟨?_, ?_, ?_⟩ <;>
    · simp [mkBuilding, uniform, Vec3.r, Vec3.g, Vec3.b, h5]
      nlinarith [(hu (8 * i + 5)).1, (hu (8 * i + 5)).2, (hu (8 * i + 6)).1,
        (hu (8 * i + 6)).2, (hu (8 * i + 7)).1, (hu (8 * i + 7)).2]

/-- Witness for C8: constant sample 1/2, N = 1, index 0 (a multiple of
5, so the bright branch applies and the muted branch is vacuous). -/
theorem generateCity_color_classes_witness :
    (0 % 5 = 0 →
      1 / 2 ≤ ((generateCity (fun _ => (1 : ℚ) / 2) [] 1).getD 0 ground).color.r ∧
      1 / 2 ≤ ((generateCity (fun _ => (1 : ℚ) / 2) [] 1).getD 0 ground).color.g ∧
      1 / 2 ≤ ((generateCity (fun _ => (1 : ℚ) / 2) [] 1).getD 0 ground).color.b) ∧
    (0 % 5 ≠ 0 →
      ((generateCity (fun _ => (1 : ℚ) / 2) [] 1).getD 0 ground).color.r ≤ 24 / 100 ∧
      ((generateCity (fun _ => (1 : ℚ) / 2) [] 1).getD 0 ground).color.g ≤ 24 / 100 ∧
      ((generateCity (fun _ => (1 : ℚ) / 2) [] 1).getD 0 ground).color.b ≤ 8 / 10) :=
  generateCity_color_classes (fun _ => 1 / 2)
    (fun _ => ⟨by norm_num, by norm_num⟩) 1 0 (by norm_num)

/-- Claim C9: generateCity appends to the caller-supplied sequence
without clearing it: the original elements stay unchanged at their
original positions, followed by exactly the N.toNat random buildings
and then the ground plane. -/
theorem generateCity_preserves_input (u : ℕ → ℚ) (init : List Building)
    (N : ℤ) :
    (generateCity u init N).take init.length = init ∧
    (generateCity u init N).drop init.length =
      (List.range N.toNat).map (mkBuilding u) ++ [ground] ∧
    (generateCity u init N).length = init.length + (N.toNat + 1) := by
  refine ⟨?_, ?_, ?_⟩ <;>
    simp [generateCity, List.append_assoc, List.take_left, List.drop_left]

/-- Claim C10: a negative count generates no random buildings; the call
appends only the ground plane, exactly as a call with count 0 does. -/
theorem generateCity_negative_count (u : ℕ → ℚ) (init : List Building)
    (N : ℤ) (hN : N < 0) :
    generateCity u init N = generateCity u init 0 ∧
    generateCity u init N = init ++ [ground] := by
  have h0 : N.toNat = 0 := Int.toNat_of_nonpos (le_of_lt hN)
  constructor <;> simp [generateCity, h0]

/-- Witness for C10 at N = -1 on the empty initial sequence. -/
theorem generateCity_negative_count_witness :
    generateCity (fun _ => (1 : ℚ) / 2) [] (-1) =
      generateCity (fun _ => (1 : ℚ) / 2) [] 0 ∧
    generateCity (fun _ => (1 : ℚ) / 2) [] (-1) = [] ++ [ground] :=
  generateCity_negative_count (fun _ => 1 / 2) [] (-1) (by norm_num)

end City
